import Mathlib

/-!
Verification development for the competitive-intelligence platform.

The frontend TypeScript sources (types, pricing utilities, metric helpers,
API client, polling page, alerts tab) are embedded shallowly below.  The
backend core (job store, pipeline orchestrator, change detector, monitor
refresh endpoint) is not part of the available sources; those components
are modelled from the specification and are marked as such in their doc
comments.

JavaScript machine numbers are modelled as rationals, JavaScript strings
as Lean strings, and `null`/`undefined` as `Option`.
-/

namespace CompIntel

/-! ### String utilities modelling JavaScript primitives -/

/-- Characters treated as whitespace by the JS `trim` and the `\s` class
(ASCII subset; the sources only ever deal with ASCII price strings). -/
def isJsSpace (c : Char) : Bool :=
  c == ' ' || c == '\t' || c == '\n' || c == '\r'

/-- Model of `String.prototype.trim`. -/
def jsTrim (s : String) : String :=
  ⟨((s.data.dropWhile isJsSpace).reverse.dropWhile isJsSpace).reverse⟩

/-- Model of `String.prototype.toLowerCase` (ASCII). -/
def jsToLower (s : String) : String :=
  ⟨s.data.map Char.toLower⟩

/-- Substring search on character lists (model of `String.prototype.includes`):
the needle occurs starting at some position of the haystack. -/
def containsSub (needle : List Char) : List Char → Bool
  | [] => needle.isEmpty
  | c :: t => needle.isPrefixOf (c :: t) || containsSub needle t

/-- Model of `hay.includes(needle)` for JS strings. -/
def strContains (hay needle : String) : Bool :=
  containsSub needle.data hay.data

/-! ### Data model, embedded from the frontend type declarations
(`lib/types.ts`, mirrored by `lib/api.ts`). -/

/-- Confidence tier used by source attributions and metrics. -/
inductive ConfidenceLevel
  | high
  | medium
  | low
deriving DecidableEq, Repr

structure SourceAttribution where
  source_url : String
  source_type : String
  scraped_at : String
  confidence : Option ConfidenceLevel := none
deriving DecidableEq, Repr

structure PricingTier where
  name : String
  price : Option String
  features : List String
  source : Option SourceAttribution := none
deriving DecidableEq, Repr

structure NewsItem where
  title : String
  summary : Option String := none
  url : Option String := none
  date : Option String := none
  source_type : Option String := none
deriving DecidableEq, Repr

structure SWOTAnalysis where
  strength : Option (List String) := none
  weakness : Option (List String) := none
  opportunity : Option (List String) := none
  threat : Option (List String) := none
deriving DecidableEq, Repr

/-- Structured competitor data (extracted by the researcher). -/
structure Competitor where
  pricing_tiers : List PricingTier
  recent_news : List NewsItem
  feature_list : List String
  swot_analysis : Option SWOTAnalysis
  sources : Option (List SourceAttribution) := none
deriving DecidableEq, Repr

structure BaseProfile where
  company_name : String
  company_url : String
  pricing_tiers : List PricingTier
  feature_list : List String
deriving DecidableEq, Repr

structure CompetitorProfile where
  company_name : String
  company_url : String
  data : Competitor
deriving DecidableEq, Repr

/-- Backend-sourced metric with reasoning.  The declared TS type of `value`
is `string`, but both accessors guard it with `?? ""`, so it is modelled
as nullable. -/
structure MetricWithReasoning where
  value : Option String
  reasoning : String
  confidence : ConfidenceLevel
  inputs_used : List String
deriving DecidableEq, Repr

/-- Display value for a metric: plain string (legacy) or
`MetricWithReasoning` from the API. -/
inductive MetricValue
  | str (s : String)
  | obj (m : MetricWithReasoning)
deriving DecidableEq, Repr

/-- Comparison summary.  The presentation-only optional fields
(`market_segments`, `strategic_recommendations`, `data_sources`,
`sources_used`, `total_market_size`, `total_active_users`) are not read by
any embedded operation and are omitted from the model. -/
structure ComparisonSummary where
  summary_text : String
  win_rate : MetricValue
  market_share_estimate : MetricValue
  pricing_advantage : MetricValue
  confidence_note : Option String := none
deriving DecidableEq, Repr

structure MarketReport where
  base_company_data : BaseProfile
  competitors : List CompetitorProfile
  comparisons : ComparisonSummary
deriving DecidableEq, Repr

inductive AnalysisStatus
  | processing
  | ready
  | failed
deriving DecidableEq, Repr

inductive ProgressStatus
  | done
  | in_progress
  | pending
deriving DecidableEq, Repr

structure ProgressStep where
  step : String
  status : ProgressStatus
  timestamp : String
deriving DecidableEq, Repr

structure AnalysisResponse where
  job_id : String
  status : AnalysisStatus
  base_url : Option String
  report : Option MarketReport
  error : Option String
  progress : List ProgressStep := []
deriving DecidableEq, Repr

inductive Severity
  | critical
  | high
  | medium
  | low
deriving DecidableEq, Repr

structure ChangeEvent where
  id : String
  monitored_company_id : String
  competitor_name : String
  change_type : String
  title : String
  description : String
  old_value : Option String := none
  new_value : Option String := none
  severity : Severity
  detected_at : String
  source_url : Option String := none
deriving DecidableEq, Repr

structure ChangesResponse where
  monitor_id : String
  company_name : String
  changes : List ChangeEvent
  last_checked : Option String
deriving DecidableEq, Repr

/-! ### Metric display helpers
`metricDisplayValue` from `lib/types.ts` and `getMetricValue` from
`lib/metric-utils.ts`.  In the typed embedding the runtime shape test
`isMetricWithReasoning` (non-null object with `value` and `reasoning`
keys) coincides with matching the `.obj` constructor, and
`typeof metric === "string"` with matching `.str`. -/

/-- Shape test from `lib/types.ts`: non-null object carrying `value` and
`reasoning`. -/
def isMetricWithReasoning : Option MetricValue → Bool
  | some (.obj _) => true
  | _ => false

/-- From `lib/types.ts`: `if (m == null) return ""; return
isMetricWithReasoning(m) ? (m.value ?? "").trim() : String(m).trim()`. -/
def metricDisplayValue : Option MetricValue → String
  | none => ""
  | some (.obj o) => jsTrim (o.value.getD "")
  | some (.str s) => jsTrim s

/-- From `lib/metric-utils.ts`: `if (metric == null) return ""; if (typeof
metric === "string") return metric.trim(); return (metric.value ??
"").trim()`. -/
def getMetricValue : Option MetricValue → String
  | none => ""
  | some (.str s) => jsTrim s
  | some (.obj o) => jsTrim (o.value.getD "")

/-! ### Pricing utilities, embedded from `lib/pricing-utils.ts` -/

/-- Numeric value of a digit run (model of the integer part consumed by
`parseFloat`). -/
def digitsVal (l : List Char) : Nat :=
  l.foldl (fun a c => a * 10 + (c.toNat - '0'.toNat)) 0

/-- Value of a fractional digit run. -/
def fracVal (l : List Char) : ℚ :=
  (digitsVal l : ℚ) / (10 ^ l.length)

/-- First match of the regex `\$?\s*(\d+(?:\.\d+)?)` on a character list:
the capture group is the first maximal digit run, together with a
fractional part when a `.` followed by digits comes right after, parsed
as by `parseFloat`. -/
def scanNumber : List Char → Option ℚ
  | [] => none
  | c :: cs =>
    if c.isDigit then
      let ip := (c :: cs).takeWhile Char.isDigit
      match (c :: cs).dropWhile Char.isDigit with
      | '.' :: r2 =>
        let fp := r2.takeWhile Char.isDigit
        if fp.isEmpty then some (digitsVal ip : ℚ)
        else some ((digitsVal ip : ℚ) + fracVal fp)
      | _ => some (digitsVal ip : ℚ)
    else scanNumber cs

/-- Line 44 of `pricing-utils.ts`:
`raw.replace(/,/g, "").match(/\$?\s*(\d+(?:\.\d+)?)/)`, then `parseFloat`
of the capture. -/
def firstNumber (raw : String) : Option ℚ :=
  scanNumber (raw.data.filter (fun c => !(c == ',')))

/-- Annual-billing marker test (lines 49–54). -/
def hasAnnualMarker (lower : String) : Bool :=
  strContains lower "annual" || strContains lower "yearly" ||
  strContains lower "/year" || strContains lower "/yr" ||
  strContains lower "per year"

/-- Monthly-billing marker test (lines 55–59). -/
def hasMonthlyMarker (lower : String) : Bool :=
  strContains lower "/mo" || strContains lower "/month" ||
  strContains lower "monthly" || strContains lower "per month"

/-- Free-tier test (line 29). -/
def isFreeStr (lower : String) : Bool :=
  lower == "free" || lower == "free tier"

/-- Non-comparable guard (lines 33–39): contact/custom pricing,
`enterprise` without a digit or dot, em dash, or `n/a`. -/
def nonComparableStr (raw lower : String) : Bool :=
  strContains lower "contact" || strContains lower "custom" ||
  (strContains lower "enterprise" &&
    !(raw.data.any (fun c => c.isDigit || c == '.'))) ||
  lower == "—" || lower == "n/a"

/-- Match of `\s*(\d+)\s*users?` after a `for`/`up to` literal. -/
def matchUsersTail (l : List Char) : Option Nat :=
  let l1 := l.dropWhile isJsSpace
  let ds := l1.takeWhile Char.isDigit
  if ds.isEmpty then none
  else
    let l2 := (l1.dropWhile Char.isDigit).dropWhile isJsSpace
    if ['u', 's', 'e', 'r'].isPrefixOf l2 then some (digitsVal ds) else none

/-- First match of the regex `(?:for|up to)\s*(\d+)\s*users?`, trying the
two alternatives at each position from the left as the JS engine does. -/
def findUsersDiv : List Char → Option Nat
  | [] => none
  | c :: cs =>
    match (if ['f', 'o', 'r'].isPrefixOf (c :: cs)
           then matchUsersTail ((c :: cs).drop 3) else none) with
    | some n => some n
    | none =>
      match (if ['u', 'p', ' ', 't', 'o'].isPrefixOf (c :: cs)
             then matchUsersTail ((c :: cs).drop 5) else none) with
      | some n => some n
      | none => findUsersDiv cs

/-- Lines 62–66: `lower.match(/(?:for|up to)\s*(\d+)\s*users?/)`, with
`parseInt` of the capture. -/
def usersDivisorOf (lower : String) : Option Nat :=
  findUsersDiv lower.data

/-- Result of `normalizeToMonthlyPrice`.  Numbers are rationals. -/
structure NormalizeResult where
  monthly : Option ℚ
  note : Option String
  wasAnnual : Bool
  wasPerUser : Bool
deriving DecidableEq, Repr

def emptyNormalize : NormalizeResult :=
  { monthly := none, note := none, wasAnnual := false, wasPerUser := false }

/-- Model of `Math.round` (half rounds toward positive infinity). -/
def jsRound (x : ℚ) : ℤ := ⌊x + 1 / 2⌋

/-- Model of `Math.round(x * 10) / 10`. -/
def round1 (x : ℚ) : ℚ := (jsRound (x * 10) : ℚ) / 10

/-- Rendering of a JS number inside a template literal.  The exact JS
decimal/locale formatting is abstracted by the rational printer; no
theorem below depends on the text of a note. -/
def qstr (q : ℚ) : String := toString q

/-- Embedding of `normalizeToMonthlyPrice` (pricing-utils.ts lines
22–90): normalize a price string to a comparable monthly per-unit
number. -/
def normalizeToMonthlyPrice (priceString : Option String) : NormalizeResult :=
  match priceString with
  | none => emptyNormalize
  | some ps =>
    let raw := jsTrim ps
    let lower := jsToLower raw
    if isFreeStr lower then
      { monthly := some 0, note := some "Free tier",
        wasAnnual := false, wasPerUser := false }
    else if nonComparableStr raw lower then emptyNormalize
    else
      match firstNumber raw with
      | none => emptyNormalize
      | some num =>
        let isAnnual := hasAnnualMarker lower
        let _isMonthly := hasMonthlyMarker lower
        let usersDivisor := usersDivisorOf lower
        let wasAnnual := isAnnual
        let wasPerUser := usersDivisor.isSome
        -- lines 74–80: annual prices are divided by 12; otherwise the
        -- number is already (assumed) monthly, so `monthly` stays `num`
        let monthly1 : ℚ := if isAnnual then num / 12 else num
        let note1 : Option String :=
          if isAnnual then
            some ("Annual $" ++ qstr num ++ " → ~$" ++
                  qstr (round1 (num / 12)) ++ "/mo")
          else none
        -- lines 82–86: total price for N users is divided by N
        let step2 : ℚ × Option String :=
          match usersDivisor with
          | some d =>
            if 0 < d then
              (monthly1 / (d : ℚ),
               match note1 with
               | some n => some (n ++ ", ÷" ++ toString d ++ " users")
               | none =>
                 some ("Per-user price → ~$" ++
                       qstr (round1 (monthly1 / (d : ℚ))) ++ "/user/mo"))
            else (monthly1, note1)
          | none => (monthly1, note1)
        -- line 88
        let note3 : Option String :=
          if step2.2 = none ∧ step2.1 ≠ num then
            some ("~$" ++ qstr (round1 step2.1) ++ "/mo")
          else step2.2
        { monthly := some step2.1, note := note3,
          wasAnnual := wasAnnual, wasPerUser := wasPerUser }

inductive PriceDirection
  | lower
  | higher
  | equal
deriving DecidableEq, Repr

structure PriceDifferenceResult where
  percentage : Option ℚ
  direction : PriceDirection
  baseMonthly : Option ℚ
  competitorMonthly : Option ℚ
  comparable : Bool
  baseNote : Option String
  competitorNote : Option String
deriving DecidableEq, Repr

/-- Embedding of `calculatePriceDifference` (pricing-utils.ts lines
109–150): compare two price strings using normalized monthly values. -/
def calculatePriceDifference (basePrice competitorPrice : Option String) :
    PriceDifferenceResult :=
  let base := normalizeToMonthlyPrice basePrice
  let comp := normalizeToMonthlyPrice competitorPrice
  match base.monthly, comp.monthly with
  | some bm, some cm =>
    if cm = 0 ∧ bm = 0 then
      { percentage := some 0, direction := .equal, baseMonthly := some bm,
        competitorMonthly := some cm, comparable := true,
        baseNote := base.note, competitorNote := comp.note }
    else if cm = 0 then
      { percentage := some 100, direction := .higher, baseMonthly := some bm,
        competitorMonthly := some cm, comparable := true,
        baseNote := base.note, competitorNote := comp.note }
    else
      let pct : ℚ := ((cm - bm) / cm) * 100
      if |pct| < 1 / 2 then
        { percentage := some 0, direction := .equal, baseMonthly := some bm,
          competitorMonthly := some cm, comparable := true,
          baseNote := base.note, competitorNote := comp.note }
      else
        { percentage := some (round1 pct),
          direction := if 0 < pct then .lower else .higher,
          baseMonthly := some bm, competitorMonthly := some cm,
          comparable := true, baseNote := base.note,
          competitorNote := comp.note }
  | _, _ =>
    { percentage := none, direction := .equal, baseMonthly := base.monthly,
      competitorMonthly := comp.monthly, comparable := false,
      baseNote := base.note, competitorNote := comp.note }

/-! ### API client, embedded from `lib/api.ts`
A `fetch` outcome is modelled by its observable shape: a parsed body on
HTTP success, or the failing HTTP status code. -/

inductive HttpResult (α : Type)
  | ok (body : α)
  | notFound
  | otherErr (code : Nat)
deriving DecidableEq, Repr

/-- Lines 110–120 of the API client: `GET /analysis/{job_id}`; a 404
throws `Analysis not found`, any other non-ok status throws `Failed to
fetch analysis: {status}`.  `getAnalysis` is an alias of this function. -/
def pollAnalysis : HttpResult AnalysisResponse → Except String AnalysisResponse
  | .ok d => .ok d
  | .notFound => .error "Analysis not found"
  | .otherErr c => .error ("Failed to fetch analysis: " ++ toString c)

/-- Refresh endpoint outcome (no parsed body: the client ignores the
response body). -/
inductive SimpleHttp
  | ok
  | notFound
  | otherErr (code : Nat)
deriving DecidableEq, Repr

/-- Lines 223–232 of the API client: `POST /monitor/{id}/refresh`.  The
declared return type is `Promise<void>`: on success the caller receives
no data. -/
def refreshMonitor : SimpleHttp → Except String Unit
  | .ok => .ok ()
  | .notFound => .error "Monitor not found"
  | .otherErr c => .error ("Failed to refresh: " ++ toString c)

/-- Lines 200–209 of the API client: `GET /monitor/{id}/changes`. -/
def getChanges : HttpResult ChangesResponse → Except String ChangesResponse
  | .ok d => .ok d
  | .notFound => .error "Monitor not found"
  | .otherErr c => .error ("Failed to fetch changes: " ++ toString c)

/-! ### Analysis page client state, embedded from
`app/analysis/[jobId]/page.tsx` -/

/-- Client-side page status (line 72). -/
inductive PageStatus
  | loading
  | ready
  | failed
  | not_found
deriving DecidableEq, Repr

/-- Outcome of one `fetchAnalysis`/`poll` round (page.tsx lines 82–119 and
147–181): a thrown error whose message includes `not found` maps to the
distinct `not_found` state, any other error to `failed`; a `ready`
response carrying a report maps to `ready`, a `failed` response to
`failed`, and everything else leaves the page polling (`loading`). -/
def fetchAnalysisStatus : Except String AnalysisResponse → PageStatus
  | .error msg => if strContains msg "not found" then .not_found else .failed
  | .ok d =>
    match d.status, d.report with
    | .ready, some _ => .ready
    | .ready, none => .loading
    | .failed, _ => .failed
    | .processing, _ => .loading

/-! ### Alerts tab refresh flow, embedded from the AlertsTab component -/

/-- The `handleRefresh` callback: `await refreshMonitor(monitorId); await
fetchChanges()`.  There is no catch around `refreshMonitor` (only a
`finally` resetting the spinner), so a refresh error propagates and
`fetchChanges` never runs; `fetchChanges` itself catches its own errors
and stores `null`.  The value is the change list the component ends up
holding (`some` the fetched changes, `none` when `fetchChanges` failed). -/
def handleRefresh (refreshRes : SimpleHttp)
    (changesRes : HttpResult ChangesResponse) :
    Except String (Option (List ChangeEvent)) :=
  match refreshMonitor refreshRes with
  | .error e => .error e
  | .ok _ =>
    match getChanges changesRes with
    | .ok data => .ok (some data.changes)
    | .error _ => .ok none

/-! ### Backend model
The backend sources (`main.py`, `market_discovery_agent.py`,
`change_detector.py`) are not part of the available sources — only their
README and architecture notes are.  The definitions in this section are
modelled from the specification. -/

/-- Modelled from the spec: the job-store state machine of §4.2 (the job
store lives in `main.py`, which is missing from the sources).  One
evolution step of a job's `status` field: it stays put, or moves
`processing → ready` or `processing → failed`; `ready` and `failed` admit
no outgoing transition.  The relation is reflexive and closed under
composition, so it also relates any two store states separated by several
transitions, hence any two successive poll observations. -/
def statusStep (a b : AnalysisStatus) : Prop :=
  a = b ∨ (a = .processing ∧ (b = .ready ∨ b = .failed))

instance : DecidableRel statusStep := fun a b =>
  inferInstanceAs (Decidable (a = b ∨ (a = .processing ∧ (b = .ready ∨ b = .failed))))

/-- Terminal job statuses (§4.2). -/
def terminalStatus (s : AnalysisStatus) : Prop :=
  s = .ready ∨ s = .failed

instance : DecidablePred terminalStatus := fun s =>
  inferInstanceAs (Decidable (s = .ready ∨ s = .failed))

/-- Modelled from the spec: the poll read of §6 against the in-memory job
store (`ANALYSIS_JOBS` in the missing `main.py`): a pure lookup keyed by
job id; an unknown id yields the 404 outcome, a known id the stored
record. -/
def pollServer (jobs : List (String × AnalysisResponse)) (jobId : String) :
    HttpResult AnalysisResponse :=
  match jobs.find? (fun p => p.1 == jobId) with
  | some p => .ok p.2
  | none => .notFound

/-- Success test for an invoker outcome. -/
def isOkE {ε α : Type} : Except ε α → Bool
  | .ok _ => true
  | .error _ => false

/-- Modelled from the spec: the four-stage Pipeline Orchestrator of §4.1
(`market_discovery_agent.py` is missing from the sources).  The invoker
outcomes are passed in as data: `baseRes` is the base research result,
`discoverRes` the discovery result, `research u` the settled fan-out
result for competitor URL `u`, and `synthesize` the synthesis result.
Stage 1 failure is fatal; discovery failure degrades to an empty URL
list; stage 3 keeps exactly the successfully analyzed competitors,
dropping failures; stage 4 failure is fatal.  The value is the final
`(status, result, error)` of the job record. -/
def runPipeline (baseRes : Except String BaseProfile)
    (discoverRes : Except String (List String))
    (research : String → Except String CompetitorProfile)
    (synthesize : BaseProfile → List CompetitorProfile →
      Except String ComparisonSummary) :
    AnalysisStatus × Option MarketReport × Option String :=
  match baseRes with
  | .error e => (.failed, none, some e)
  | .ok base =>
    let urls := match discoverRes with
      | .error _ => []
      | .ok us => us
    let settled := urls.map research
    let comps := settled.filterMap Except.toOption
    match synthesize base comps with
    | .error e => (.failed, none, some e)
    | .ok cmp =>
      (.ready, some ⟨base, comps, cmp⟩, none)

/-! ### Change detector, modelled from §4.3
(`change_detector.py` is missing from the sources). -/

/-- Case-insensitive matching key (§4.3: entities are matched by name,
case-insensitively). -/
def keyOf (s : String) : String := jsToLower s

def tierKey (t : PricingTier) : String := keyOf t.name

def compKey (c : CompetitorProfile) : String := keyOf c.company_name

/-- Keep the first element for each key, dropping later elements whose
key was already seen. -/
def dedupAux {α : Type} (key : α → String) (seen : List String) :
    List α → List α
  | [] => []
  | x :: xs =>
    if key x ∈ seen then dedupAux key seen xs
    else x :: dedupAux key (key x :: seen) xs

def dedupByKey {α : Type} (key : α → String) (l : List α) : List α :=
  dedupAux key [] l

/-- Modelled from the spec: the deterministic news-severity keyword
heuristic of §4.3, mirroring the `impactFromTitle` classifier the
frontend applies to the same titles (pricing/acquisition/discontinuation
language ranks highest, launch/feature/partnership language next). -/
def newsSeverity (title : String) : Severity :=
  let t := jsToLower title
  if strContains t "price" || strContains t "acquisition" ||
     strContains t "discontinu" then .high
  else if strContains t "launch" || strContains t "feature" ||
     strContains t "partnership" then .medium
  else .low

/-- Modelled from the spec: pricing comparison of §4.3 — for each tier
name present in both snapshots (names are keys: only the first tier per
name is considered), a textual difference of the free-text price emits a
`pricing_change` event with the verbatim old/new values and severity
high.  Event ids are assigned by the surrounding store and modelled as
empty strings. -/
def pricingEvents (ts mid compName : String) (prev cur : Competitor) :
    List ChangeEvent :=
  (dedupByKey tierKey cur.pricing_tiers).filterMap (fun t =>
    match prev.pricing_tiers.find? (fun p => tierKey p == tierKey t) with
    | none => none
    | some p =>
      if p.price = t.price then none
      else some
        { id := "", monitored_company_id := mid,
          competitor_name := compName, change_type := "pricing_change",
          title := "Pricing change: " ++ t.name,
          description := compName ++ " changed the price of " ++ t.name,
          old_value := p.price, new_value := t.price,
          severity := .high, detected_at := ts,
          source_url := t.source.map (fun s => s.source_url) })

/-- Modelled from the spec: feature comparison of §4.3 — each feature of
the current snapshot absent (case-insensitively) from the previous one
emits a `new_feature` event, severity medium. -/
def featureEvents (ts mid compName : String) (prev cur : Competitor) :
    List ChangeEvent :=
  cur.feature_list.filterMap (fun f =>
    if keyOf f ∈ prev.feature_list.map keyOf then none
    else some
      { id := "", monitored_company_id := mid,
        competitor_name := compName, change_type := "new_feature",
        title := "New feature: " ++ f,
        description := compName ++ " added " ++ f,
        new_value := some f, severity := .medium, detected_at := ts })

/-- Modelled from the spec: news comparison of §4.3 — each current news
item whose title was not present in the previous snapshot emits a `news`
event with the keyword-derived severity. -/
def newsEvents (ts mid compName : String) (prev cur : Competitor) :
    List ChangeEvent :=
  cur.recent_news.filterMap (fun n =>
    if n.title ∈ prev.recent_news.map (fun m => m.title) then none
    else some
      { id := "", monitored_company_id := mid,
        competitor_name := compName, change_type := "news",
        title := n.title, description := n.summary.getD "",
        severity := newsSeverity n.title, detected_at := ts,
        source_url := n.url })

/-- Threat entries of a competitor's SWOT (empty when absent). -/
def threatsOf (c : Competitor) : List String :=
  match c.swot_analysis with
  | none => []
  | some s => s.threat.getD []

/-- Opportunity entries of a competitor's SWOT (empty when absent). -/
def oppsOf (c : Competitor) : List String :=
  match c.swot_analysis with
  | none => []
  | some s => s.opportunity.getD []

/-- Modelled from the spec: SWOT deltas of §4.3 — newly appearing threat
or opportunity entries (set difference) emit `swot_change` events,
severity medium. -/
def swotEvents (ts mid compName : String) (prev cur : Competitor) :
    List ChangeEvent :=
  (threatsOf cur).filterMap (fun x =>
    if x ∈ threatsOf prev then none
    else some
      { id := "", monitored_company_id := mid,
        competitor_name := compName, change_type := "swot_change",
        title := "New threat: " ++ x, description := x,
        new_value := some x, severity := .medium, detected_at := ts })
  ++ (oppsOf cur).filterMap (fun x =>
    if x ∈ oppsOf prev then none
    else some
      { id := "", monitored_company_id := mid,
        competitor_name := compName, change_type := "swot_change",
        title := "New opportunity: " ++ x, description := x,
        new_value := some x, severity := .medium, detected_at := ts })

/-- Per-competitor comparison of §4.3, grouped by detection category
(pricing, features, news, SWOT) for stable output ordering. -/
def detectForCompetitor (ts mid : String) (prev cur : CompetitorProfile) :
    List ChangeEvent :=
  pricingEvents ts mid cur.company_name prev.data cur.data
  ++ featureEvents ts mid cur.company_name prev.data cur.data
  ++ newsEvents ts mid cur.company_name prev.data cur.data
  ++ swotEvents ts mid cur.company_name prev.data cur.data

/-- The single `new_competitor` event for a first-time competitor. -/
def newCompetitorEvent (ts mid : String) (c : CompetitorProfile) :
    ChangeEvent :=
  { id := "", monitored_company_id := mid,
    competitor_name := c.company_name, change_type := "new_competitor",
    title := "New competitor: " ++ c.company_name,
    description := c.company_name ++ " newly appears in the report",
    severity := .medium, detected_at := ts,
    source_url := some c.company_url }

/-- Modelled from the spec: the Change Detector `detect` of §4.3
(`detect_changes(old_report, new_report)` in the missing
`change_detector.py`).  A pure, deterministic function of the detection
timestamp, the owning monitor id and the two reports: competitors are
matched by name case-insensitively (names are keys: only the first
competitor per name is considered); a competitor present in both reports
gets the per-field comparison, a competitor only present in the current
report emits exactly one `new_competitor` event and is exempt from the
per-field comparison.  Output is grouped by competitor, then by
category. -/
def detectChanges (ts mid : String) (previous current : MarketReport) :
    List ChangeEvent :=
  (dedupByKey compKey current.competitors).flatMap (fun c =>
    match previous.competitors.find? (fun p => compKey p == compKey c) with
    | some p => detectForCompetitor ts mid p c
    | none => [newCompetitorEvent ts mid c])

/-! ### Progress snapshots, modelled from §4.1 -/

/-- Rank of a progress status (`pending < in_progress < done`). -/
def statusRank : ProgressStatus → Nat
  | .pending => 0
  | .in_progress => 1
  | .done => 2

/-- Snapshot with the first `k` of the four stages done and the rest
pending. -/
def snapDone (k : Nat) : List ProgressStatus :=
  List.replicate k .done ++ List.replicate (4 - k) .pending

/-- Snapshot with the first `k` stages done, stage `k` in progress and
the rest pending. -/
def snapActive (k : Nat) : List ProgressStatus :=
  List.replicate k .done ++ [.in_progress] ++ List.replicate (3 - k) .pending

/-- Modelled from the spec: the sequence of progress-step snapshots the
orchestrator of §4.1 publishes for the four-stage pipeline — progress is
updated before and after each stage, so a poll observes some snapshot of
this sequence, and later polls observe later snapshots. -/
def progressTrace : List (List ProgressStatus) :=
  [snapDone 0] ++ (List.range 4).flatMap (fun k => [snapActive k, snapDone (k + 1)])

/-- Pointwise non-decreasing rank between two snapshots (a step never
regresses; in particular `done` is terminal for a step). -/
def stepMono (a b : List ProgressStatus) : Bool :=
  a.length == b.length &&
  (List.zip a b).all (fun p => Nat.ble (statusRank p.1) (statusRank p.2))

/-! ### Concrete sample data used by witnesses and counterexamples -/

def sampleComparison : ComparisonSummary :=
  { summary_text := "Base leads on price", win_rate := .str "60%",
    market_share_estimate := .str "10%", pricing_advantage := .str "lower" }

def sampleBase : BaseProfile :=
  { company_name := "Base", company_url := "https://base.com",
    pricing_tiers := [], feature_list := [] }

def emptyCompetitorData : Competitor :=
  { pricing_tiers := [], recent_news := [], feature_list := [],
    swot_analysis := none }

def competitorA : CompetitorProfile :=
  { company_name := "A", company_url := "https://a.com",
    data := emptyCompetitorData }

def competitorC : CompetitorProfile :=
  { company_name := "C", company_url := "https://c.com",
    data := emptyCompetitorData }

/-- Fan-out outcomes with exactly one failure (URL `b`). -/
def sampleResearch : String → Except String CompetitorProfile := fun u =>
  if u == "a" then .ok competitorA
  else if u == "b" then .error "scrape failed"
  else .ok competitorC

def sampleSynth :
    BaseProfile → List CompetitorProfile → Except String ComparisonSummary :=
  fun _ _ => .ok sampleComparison

/-- Previous snapshot: competitor `Acme` with tier `Pro` at `$49/mo`. -/
def reportPrev : MarketReport :=
  { base_company_data := sampleBase,
    competitors :=
      [{ company_name := "Acme", company_url := "https://acme.com",
         data := { pricing_tiers :=
                     [{ name := "Pro", price := some "$49/mo", features := [] }],
                   recent_news := [], feature_list := [],
                   swot_analysis := none } }],
    comparisons := sampleComparison }

/-- Current snapshot: the same competitor with tier `Pro` at `$59/mo`. -/
def reportCur : MarketReport :=
  { base_company_data := sampleBase,
    competitors :=
      [{ company_name := "Acme", company_url := "https://acme.com",
         data := { pricing_tiers :=
                     [{ name := "Pro", price := some "$59/mo", features := [] }],
                   recent_news := [], feature_list := [],
                   swot_analysis := none } }],
    comparisons := sampleComparison }

/-- The single event the detector emits for `reportPrev` vs `reportCur`. -/
def acmePricingEvent : ChangeEvent :=
  { id := "", monitored_company_id := "m1", competitor_name := "Acme",
    change_type := "pricing_change", title := "Pricing change: Pro",
    description := "Acme changed the price of Pro",
    old_value := some "$49/mo", new_value := some "$59/mo",
    severity := .high, detected_at := "2025-01-01T00:00:00Z",
    source_url := none }

def sampleResponse : AnalysisResponse :=
  { job_id := "job1", status := .processing,
    base_url := some "https://base.com", report := none, error := none }

def sampleChangeEvent : ChangeEvent :=
  { id := "e1", monitored_company_id := "m1", competitor_name := "Acme",
    change_type := "news", title := "Acme launches new plan",
    description := "", severity := .medium,
    detected_at := "2025-01-02T00:00:00Z" }

/-! ### Helper lemmas -/

theorem mem_dedupAux_not_seen {α : Type} (key : α → String) :
    ∀ (l : List α) (seen : List String) (x : α),
      x ∈ dedupAux key seen l → key x ∉ seen := by
  intro l
  induction l with
  | nil => intro seen x hx; simp [dedupAux] at hx
  | cons y ys ih =>
    intro seen x hx
    by_cases h : key y ∈ seen
    · simp only [dedupAux, if_pos h] at hx
      exact ih seen x hx
    · simp only [dedupAux, if_neg h] at hx
      rcases List.mem_cons.mp hx with rfl | hx'
      · exact h
      · have h2 := ih (key y :: seen) x hx'
        exact fun hc => h2 (List.mem_cons_of_mem _ hc)

theorem mem_dedupAux_find {α : Type} (key : α → String) :
    ∀ (l : List α) (seen : List String) (x : α),
      x ∈ dedupAux key seen l →
      l.find? (fun y => key y == key x) = some x := by
  intro l
  induction l with
  | nil => intro seen x hx; simp [dedupAux] at hx
  | cons y ys ih =>
    intro seen x hx
    by_cases h : key y ∈ seen
    · simp only [dedupAux, if_pos h] at hx
      have hns := mem_dedupAux_not_seen key ys seen x hx
      have hne : ¬(key y == key x) = true := by
        simp only [beq_iff_eq]
        exact fun he => hns (he ▸ h)
      rw [@List.find?_cons_of_neg _ (fun z => key z == key x) y ys hne]
      exact ih seen x hx
    · simp only [dedupAux, if_neg h] at hx
      rcases List.mem_cons.mp hx with rfl | hx'
      · exact List.find?_cons_of_pos _ (by simp)
      · have hns := mem_dedupAux_not_seen key ys (key y :: seen) x hx'
        have hne : ¬(key y == key x) = true := by
          simp only [beq_iff_eq]
          exact fun he => hns (he ▸ List.mem_cons_self _ _)
        rw [@List.find?_cons_of_neg _ (fun z => key z == key x) y ys hne]
        exact ih (key y :: seen) x hx'

theorem mem_dedupByKey_find {α : Type} (key : α → String) (l : List α)
    (x : α) (hx : x ∈ dedupByKey key l) :
    l.find? (fun y => key y == key x) = some x :=
  mem_dedupAux_find key l [] x hx

theorem pricingEvents_self (ts mid name : String) (c : Competitor) :
    pricingEvents ts mid name c c = [] := by
  unfold pricingEvents
  rw [List.filterMap_eq_nil_iff]
  intro t ht
  rw [mem_dedupByKey_find tierKey c.pricing_tiers t ht]
  simp

theorem featureEvents_self (ts mid name : String) (c : Competitor) :
    featureEvents ts mid name c c = [] := by
  unfold featureEvents
  rw [List.filterMap_eq_nil_iff]
  intro f hf
  rw [if_pos (List.mem_map_of_mem keyOf hf)]

theorem newsEvents_self (ts mid name : String) (c : Competitor) :
    newsEvents ts mid name c c = [] := by
  unfold newsEvents
  rw [List.filterMap_eq_nil_iff]
  intro n hn
  rw [if_pos (List.mem_map_of_mem (fun m => m.title) hn)]

theorem swotEvents_self (ts mid name : String) (c : Competitor) :
    swotEvents ts mid name c c = [] := by
  unfold swotEvents
  rw [List.append_eq_nil]
  refine ⟨List.filterMap_eq_nil_iff.mpr ?_, List.filterMap_eq_nil_iff.mpr ?_⟩
  · intro x hx; rw [if_pos hx]
  · intro x hx; rw [if_pos hx]

theorem detectForCompetitor_self (ts mid : String) (c : CompetitorProfile) :
    detectForCompetitor ts mid c c = [] := by
  unfold detectForCompetitor
  rw [pricingEvents_self, featureEvents_self, newsEvents_self, swotEvents_self]
  rfl

/-- Every step of a status chain out of a terminal status stays there. -/
theorem chain_terminal_all :
    ∀ (suf : List AnalysisStatus) (t : AnalysisStatus),
      List.Chain' statusStep (t :: suf) → terminalStatus t →
      suf.all (fun u => u == t) = true := by
  intro suf
  induction suf with
  | nil => intro t _ _; rfl
  | cons u rest ih =>
    intro t h2 hterm
    rcases List.chain'_cons.mp h2 with ⟨hstep, h3⟩
    have hut : u = t := by
      rcases hstep with h | ⟨hp, _⟩
      · exact h.symm
      · exfalso
        rcases hterm with h1 | h1 <;> (rw [h1] at hp; exact absurd hp (by decide))
    subst hut
    simp only [List.all_cons, beq_self_eq_true, Bool.true_and]
    exact ih u h3 hterm

/-- C10: the two independent metric accessors agree on every input:
empty string for null/undefined, trimmed string for a plain-string
metric, and the trimmed `value` field (empty when `value` is null) for a
`MetricWithReasoning` object. -/
theorem metric_accessors_agree (m : Option MetricValue) :
    metricDisplayValue m = getMetricValue m := by
  rcases m with _ | mv
  · rfl
  · rcases mv with s | o <;> rfl

/-- C1: along any chain of job-store states related by the `statusStep`
transitions of §4.2 (stay, `processing → ready`, `processing → failed`),
once a terminal status (`ready` or `failed`) is reached every later state
equals it — so a sequence of poll observations never shows a terminal
status followed by a different one, and a job never takes both terminal
statuses. -/
theorem poll_terminal_stable (pre suf : List AnalysisStatus)
    (t : AnalysisStatus)
    (hchain : List.Chain' statusStep (pre ++ t :: suf))
    (hterm : terminalStatus t) :
    suf.all (fun u => u == t) = true :=
  chain_terminal_all suf t (List.chain'_append.mp hchain).2.1 hterm

theorem poll_terminal_stable_witness :
    ([AnalysisStatus.ready, AnalysisStatus.ready]).all
      (fun u => u == AnalysisStatus.ready) = true :=
  poll_terminal_stable [AnalysisStatus.processing]
    [AnalysisStatus.ready, AnalysisStatus.ready] AnalysisStatus.ready
    (List.Chain.cons (by decide) (List.Chain.cons (by decide)
      (List.Chain.cons (by decide) List.Chain.nil)))
    (by decide)

/-- C2: when exactly one of three competitor analyses fails in the
fan-out stage (and base analysis and synthesis succeed), the job ends
`ready`, its report's competitor list is exactly the list of successfully
analyzed competitors, and that list has exactly two entries — the single
failure is dropped without failing the job. -/
theorem pipeline_one_failure_isolated
    (base : BaseProfile) (cmp : ComparisonSummary) (u1 u2 u3 : String)
    (research : String → Except String CompetitorProfile)
    (synthesize : BaseProfile → List CompetitorProfile →
      Except String ComparisonSummary)
    (hone : ([u1, u2, u3].map research).countP (fun r => !(isOkE r)) = 1)
    (hsynth : synthesize base
      (([u1, u2, u3].map research).filterMap Except.toOption) = .ok cmp) :
    runPipeline (.ok base) (.ok [u1, u2, u3]) research synthesize =
      (.ready,
       some ⟨base, ([u1, u2, u3].map research).filterMap Except.toOption, cmp⟩,
       none) ∧
    (([u1, u2, u3].map research).filterMap Except.toOption).length = 2 := by
  constructor
  · simp only [runPipeline]
    rw [hsynth]
  · rcases h1 : research u1 with e1 | c1 <;>
      rcases h2 : research u2 with e2 | c2 <;>
      rcases h3 : research u3 with e3 | c3 <;>
      simp [h1, h2, h3, isOkE, Except.toOption, List.countP_cons] at hone ⊢

theorem pipeline_one_failure_witness :
    runPipeline (.ok sampleBase) (.ok ["a", "b", "c"])
        sampleResearch sampleSynth =
      (.ready,
       some ⟨sampleBase,
             (["a", "b", "c"].map sampleResearch).filterMap Except.toOption,
             sampleComparison⟩,
       none) ∧
    ((["a", "b", "c"].map sampleResearch).filterMap Except.toOption).length = 2 :=
  pipeline_one_failure_isolated sampleBase sampleComparison "a" "b" "c"
    sampleResearch sampleSynth (by decide) (by rfl)

/-- C3: the change detector applied to a report and itself emits no
events, for every report (and every detection timestamp and monitor id);
`detectChanges` is a plain function of its arguments, so it is pure and
deterministic by construction. -/
theorem detect_self (ts mid : String) (r : MarketReport) :
    detectChanges ts mid r r = [] := by
  unfold detectChanges
  rw [List.flatMap_eq_nil_iff]
  intro c hc
  rw [mem_dedupByKey_find compKey r.competitors c hc]
  exact detectForCompetitor_self ts mid c

/-- C4: for the concrete report pair in which competitor `Acme` has tier
`{name: "Pro", price: "$49/mo"}` before and `{name: "Pro", price:
"$59/mo"}` after (everything else unchanged), the detector emits exactly
one `pricing_change` event, with `old_value = "$49/mo"`, `new_value =
"$59/mo"` verbatim and severity high. -/
theorem detect_pricing_change_concrete :
    detectChanges "2025-01-01T00:00:00Z" "m1" reportPrev reportCur =
      [acmePricingEvent] := by decide

/-- C5: polling an unknown job id deterministically yields the 404
outcome, which the client surfaces as the distinct `not_found` page
state; polling a known job id returns exactly the stored record, so
repeated polls of a pure store read are idempotent. -/
theorem poll_unknown_and_known (jobs : List (String × AnalysisResponse))
    (id : String) :
    (jobs.find? (fun p => p.1 == id) = none →
      pollAnalysis (pollServer jobs id) = .error "Analysis not found" ∧
      fetchAnalysisStatus (pollAnalysis (pollServer jobs id)) =
        .not_found) ∧
    (∀ e, jobs.find? (fun p => p.1 == id) = some e →
      pollAnalysis (pollServer jobs id) = .ok e.2) := by
  constructor
  · intro h
    unfold pollServer
    rw [h]
    exact ⟨rfl, by decide⟩
  · intro e h
    unfold pollServer
    rw [h]
    rfl

theorem poll_unknown_witness :
    pollAnalysis (pollServer [("job1", sampleResponse)] "nope") =
      .error "Analysis not found" ∧
    fetchAnalysisStatus
      (pollAnalysis (pollServer [("job1", sampleResponse)] "nope")) =
      PageStatus.not_found :=
  (poll_unknown_and_known [("job1", sampleResponse)] "nope").1 (by decide)

/-- C6 counterexample: on a successful refresh HTTP outcome the client's
`refreshMonitor` returns the unit value — not a list of change events —
and the change list the `handleRefresh` flow ends up with is whatever the
separate `getChanges` call returns (varying it while the refresh outcome
is fixed changes the result, and a failed `getChanges` after a successful
refresh leaves the caller with no events at all).  This refutes the claim
that the refresh call itself returns the detected `ChangeEvent` list. -/
theorem refresh_returns_void_counterexample :
    refreshMonitor SimpleHttp.ok = Except.ok () ∧
    handleRefresh SimpleHttp.ok
      (HttpResult.ok { monitor_id := "m1", company_name := "Acme",
                       changes := [sampleChangeEvent],
                       last_checked := none }) =
      Except.ok (some [sampleChangeEvent]) ∧
    handleRefresh SimpleHttp.ok
      (HttpResult.ok { monitor_id := "m1", company_name := "Acme",
                       changes := [], last_checked := none }) =
      Except.ok (some []) ∧
    handleRefresh SimpleHttp.ok HttpResult.notFound = Except.ok none :=
  ⟨rfl, rfl, rfl, rfl⟩

/-- C6 (amended): `refreshMonitor` returns void; the caller obtains the
detected changes via the separate `getChanges` call that `handleRefresh`
performs right after a successful refresh — for every changes response
`r` the flow yields exactly `r.changes` — and a failed refresh propagates
its error without fetching changes. -/
theorem refresh_then_get_changes (code : Nat) (r : ChangesResponse) :
    handleRefresh SimpleHttp.ok (HttpResult.ok r) =
      Except.ok (some r.changes) ∧
    handleRefresh SimpleHttp.notFound (HttpResult.ok r) =
      Except.error "Monitor not found" ∧
    handleRefresh (SimpleHttp.otherErr code) (HttpResult.ok r) =
      Except.error ("Failed to refresh: " ++ toString code) :=
  ⟨rfl, rfl, rfl⟩

/-- C7: along the orchestrator's published sequence of progress
snapshots, every pair of snapshots (earlier, later) has pointwise
non-decreasing step rank (`pending ≤ in_progress ≤ done`), a step that is
`done` stays `done` in every later snapshot, and within every snapshot a
later stage being `done` forces all earlier stages to be `done`. -/
theorem progress_snapshots_monotone :
    List.Pairwise (fun a b => stepMono a b = true) progressTrace ∧
    List.Pairwise (fun a b =>
      (List.zip a b).all (fun p =>
        !(p.1 == ProgressStatus.done) || (p.2 == ProgressStatus.done)) = true)
      progressTrace ∧
    (∀ s ∈ progressTrace,
      List.Pairwise
        (fun a b => b = ProgressStatus.done → a = ProgressStatus.done) s) := by
  decide

/-- C8: `calculatePriceDifference` is total and never divides by zero —
when either input fails to normalize the result is `comparable = false`
with `percentage = none`; a zero competitor monthly price is handled by
the two explicit branches (`0`/`equal` when both are zero, `100`/`higher`
when only the competitor's is zero); and the ratio
`((competitor − base) / competitor) · 100` is evaluated only in the
branch where the competitor's normalized monthly price is non-zero. -/
theorem price_difference_total (b c : Option String) :
    (((normalizeToMonthlyPrice b).monthly = none ∨
      (normalizeToMonthlyPrice c).monthly = none) →
      (calculatePriceDifference b c).comparable = false ∧
      (calculatePriceDifference b c).percentage = none) ∧
    (∀ qb : ℚ, (normalizeToMonthlyPrice b).monthly = some qb →
      (normalizeToMonthlyPrice c).monthly = some 0 → qb = 0 →
      (calculatePriceDifference b c).comparable = true ∧
      (calculatePriceDifference b c).percentage = some 0 ∧
      (calculatePriceDifference b c).direction = .equal) ∧
    (∀ qb : ℚ, (normalizeToMonthlyPrice b).monthly = some qb →
      (normalizeToMonthlyPrice c).monthly = some 0 → qb ≠ 0 →
      (calculatePriceDifference b c).comparable = true ∧
      (calculatePriceDifference b c).percentage = some 100 ∧
      (calculatePriceDifference b c).direction = .higher) ∧
    (∀ qb qc : ℚ, (normalizeToMonthlyPrice b).monthly = some qb →
      (normalizeToMonthlyPrice c).monthly = some qc → qc ≠ 0 →
      (calculatePriceDifference b c).comparable = true ∧
      (calculatePriceDifference b c).percentage =
        some (if |((qc - qb) / qc) * 100| < 1 / 2 then 0
              else round1 (((qc - qb) / qc) * 100)) ∧
      (calculatePriceDifference b c).direction =
        (if |((qc - qb) / qc) * 100| < 1 / 2 then PriceDirection.equal
         else if 0 < ((qc - qb) / qc) * 100 then PriceDirection.lower
         else PriceDirection.higher)) := by
  refine ⟨?_, ?_, ?_, ?_⟩
  · rintro (hb | hc)
    · rcases hc : (normalizeToMonthlyPrice c).monthly with _ | qc <;>
        simp [calculatePriceDifference, hb, hc]
    · rcases hb : (normalizeToMonthlyPrice b).monthly with _ | qb <;>
        simp [calculatePriceDifference, hb, hc]
  · intro qb hb hc hqb
    subst hqb
    simp [calculatePriceDifference, hb, hc]
  · intro qb hb hc hqb
    simp [calculatePriceDifference, hb, hc, hqb]
  · intro qb qc hb hc hqc
    simp only [calculatePriceDifference, hb, hc]
    rw [if_neg (fun hand => hqc hand.1), if_neg hqc]
    split_ifs <;> exact ⟨rfl, rfl, rfl⟩

theorem price_difference_total_witness :
    (calculatePriceDifference (some "$10/mo") (some "Free")).comparable =
      true ∧
    (calculatePriceDifference (some "$10/mo") (some "Free")).percentage =
      some 100 ∧
    (calculatePriceDifference (some "$10/mo") (some "Free")).direction =
      PriceDirection.higher :=
  (price_difference_total (some "$10/mo") (some "Free")).2.2.1 10
    (by decide) (by decide) (by decide)

/-- C9 counterexample: `"Custom $1,200/year"` has the annual marker
`/year` in its lowercased form and its first parsed number is 1200, yet
`normalizeToMonthlyPrice` returns the non-comparable empty result
(`monthly = none`, `wasAnnual = false`) because the `custom` guard fires
before the billing-period logic — not `monthly = 100`, `wasAnnual =
true` as the claim requires. -/
theorem normalize_annual_counterexample :
    hasAnnualMarker (jsToLower (jsTrim "Custom $1,200/year")) = true ∧
    firstNumber (jsTrim "Custom $1,200/year") = some 1200 ∧
    normalizeToMonthlyPrice (some "Custom $1,200/year") = emptyNormalize ∧
    ¬((normalizeToMonthlyPrice (some "Custom $1,200/year")).monthly =
        some 100 ∧
      (normalizeToMonthlyPrice (some "Custom $1,200/year")).wasAnnual =
        true) := by
  refine ⟨by decide, by decide, by decide, ?_⟩
  intro hcl
  exact absurd hcl.2 (by decide)

/-- C9 (amended): for every price string that does not hit the free or
non-comparable early returns (`free`, `contact`/`custom`, digit-free
`enterprise`, `—`, `n/a`), whose lowercased trimmed form contains an
annual billing marker, and whose first parsed number is `n`,
`normalizeToMonthlyPrice` returns `wasAnnual = true` with
`monthly = n / 12`; when the string additionally matches
`for N users` / `up to N users` with `N > 0` the result is further
divided by `N` and `wasPerUser = true` (and with no users match,
`wasPerUser = false`). -/
theorem normalize_annual (s : String)
    (hfree : isFreeStr (jsToLower (jsTrim s)) = false)
    (hnc : nonComparableStr (jsTrim s) (jsToLower (jsTrim s)) = false)
    (hann : hasAnnualMarker (jsToLower (jsTrim s)) = true)
    (n : ℚ) (hnum : firstNumber (jsTrim s) = some n) :
    (normalizeToMonthlyPrice (some s)).wasAnnual = true ∧
    (usersDivisorOf (jsToLower (jsTrim s)) = none →
      (normalizeToMonthlyPrice (some s)).monthly = some (n / 12) ∧
      (normalizeToMonthlyPrice (some s)).wasPerUser = false) ∧
    (∀ d : Nat, usersDivisorOf (jsToLower (jsTrim s)) = some d → 0 < d →
      (normalizeToMonthlyPrice (some s)).monthly = some (n / 12 / (d : ℚ)) ∧
      (normalizeToMonthlyPrice (some s)).wasPerUser = true) := by
  simp only [normalizeToMonthlyPrice, hfree, hnc, hann, hnum,
    Bool.false_eq_true, if_false, if_true]
  refine ⟨?_, ?_, ?_⟩
  · simp
  · intro hu
    simp [hu]
  · intro d hu hd
    simp [hu, hd]

theorem normalize_annual_witness :
    (normalizeToMonthlyPrice (some "$1,200/year for 10 users")).wasAnnual =
      true ∧
    (normalizeToMonthlyPrice (some "$1,200/year for 10 users")).monthly =
      some 10 ∧
    (normalizeToMonthlyPrice (some "$1,200/year for 10 users")).wasPerUser =
      true := by
  have h := normalize_annual "$1,200/year for 10 users" (by decide)
    (by decide) (by decide) 1200 (by decide)
  have h3 := h.2.2 10 (by decide) (by decide)
  refine ⟨h.1, ?_, h3.2⟩
  rw [h3.1]
  norm_num

end CompIntel
